import Mathlib

/-!
Verification development for TheForge's Evidence Aggregation & Scoring Engine.

The definitions below are a shallow embedding of the TypeScript sources:
  - src/services/scoring.ts            (multi-criteria scoring engine)
  - src/services/sources/serper.ts     (quota-tracked search client)
  - the CORS proxy utility             (resilient fetch client)
  - the aggregation orchestrator       (aggregateOpportunityData)

JavaScript numbers are modelled as rationals where fractional arithmetic
occurs and as integers elsewhere; JavaScript string `includes` is modelled
by an executable substring test over character lists; `Array.sort` with
comparator `(a, b) => b.score - a.score` is modelled as the stable
descending-by-score sort; `new Map(entries)` construction is modelled by
its insertion semantics (first-seen key position, last-seen value wins).
Asynchronous calls are modelled by passing each adapter's settled outcome
as an explicit `Except` value, and the cancellation signal by the boolean
values it shows at the three points where the orchestrator reads it.
-/

/-! ## JavaScript primitives -/

/-- Character-level prefix test, used for the substring test below. -/
def startsWithChars : List Char → List Char → Bool
  | _, [] => true
  | [], _ :: _ => false
  | a :: as, b :: bs => a == b && startsWithChars as bs

/-- JavaScript `haystack.includes(needle)` over character lists. -/
def containsSub : List Char → List Char → Bool
  | [], needle => needle.isEmpty
  | h :: t, needle => startsWithChars (h :: t) needle || containsSub t needle

/-- JavaScript `s.toLowerCase()` as a character list (ASCII range, which is
all the source's keyword tables exercise). -/
def lowerChars (s : String) : List Char := s.data.map Char.toLower

/-- `text.includes(kw)` where `text` is an already-lowered character list. -/
def textIncludes (text : List Char) (kw : String) : Bool := containsSub text kw.data

/-- JavaScript `Math.round`: round half toward positive infinity.
Written with `Rat.num`/`Rat.den` so that it is kernel-executable. -/
def jsRound (q : ℚ) : ℤ := (q + 1/2).num / ((q + 1/2).den : ℤ)

/-- Truthiness of an optional JavaScript boolean. -/
def jsTruthy : Option Bool → Bool
  | some true => true
  | _ => false

/-! ## Scoring engine (src/services/scoring.ts) -/

inductive FrictionSeverity where
  | minor_bug
  | workflow_gap
  | critical_pain
deriving DecidableEq, Repr

structure LeadUserIndicator where
  type : String
  description : String
  sophisticationLevel : Nat
deriving DecidableEq, Repr

/-- The idea candidate consumed by the scoring engine.  `title`, `problem`,
`jtbd`, `vertical`, `evidenceSource`, `potentialScore` and
`techStackSuggestion` are required in the TypeScript interface; the
remaining fields are optional. -/
structure MicroSaaSIdea where
  title : String
  problem : String
  jtbd : String
  vertical : String
  evidenceSource : String
  potentialScore : ℚ
  techStackSuggestion : String
  frictionSeverity : Option FrictionSeverity := none
  leadUserIndicators : Option (List LeadUserIndicator) := none
  isImportOpportunity : Option Bool := none
  revenueVerified : Option Bool := none
  estimatedMRR : Option ℚ := none
deriving DecidableEq, Repr

structure ScoringWeights where
  accessibility : ℚ
  paymentPotential : ℚ
  marketSize : ℚ
  competitionLevel : ℚ
  implementationSpeed : ℚ
deriving DecidableEq, Repr

structure ScoreBreakdown where
  accessibility : ℚ
  paymentPotential : ℚ
  marketSize : ℚ
  competitionLevel : ℚ
  implementationSpeed : ℚ
deriving DecidableEq, Repr

structure ScoringResult where
  totalScore : ℤ
  breakdown : ScoreBreakdown
  confidence : ℚ
deriving DecidableEq, Repr

def FRICTION_MULTIPLIERS : FrictionSeverity → ℚ
  | .critical_pain => 13/10
  | .workflow_gap => 1
  | .minor_bug => 7/10

def LEAD_USER_BONUS (level : Nat) : ℚ :=
  if level = 1 then 5
  else if level = 2 then 10
  else if level = 3 then 15
  else if level = 4 then 20
  else if level = 5 then 25
  else 0

def IMPORT_OPPORTUNITY_BONUS : ℚ := 15

def REVENUE_VERIFIED_BONUS : ℚ := 20

def MRR_TIER_BONUS (tier : String) : ℚ :=
  if tier = "starter" then 5
  else if tier = "growing" then 10
  else if tier = "established" then 15
  else if tier = "scale" then 20
  else 0

/-- `calculateMRRBonus(mrr?)`: zero for absent or non-positive MRR, then
ascending tier thresholds. -/
def calculateMRRBonus : Option ℚ → ℚ
  | none => 0
  | some m =>
    if m ≤ 0 then 0
    else if 50000 ≤ m then MRR_TIER_BONUS "scale"
    else if 10000 ≤ m then MRR_TIER_BONUS "established"
    else if 1000 ≤ m then MRR_TIER_BONUS "growing"
    else MRR_TIER_BONUS "starter"

def calculateAccessibility (idea : MicroSaaSIdea) : ℚ :=
  let techStack := lowerChars idea.techStackSuggestion
  let s0 : ℚ := 50
  let s1 := if textIncludes techStack "react" || textIncludes techStack "vue"
      || textIncludes techStack "next" then s0 + 15 else s0
  let s2 := if textIncludes techStack "postgres" || textIncludes techStack "firebase"
      || textIncludes techStack "supabase" then s1 + 10 else s1
  let s3 := if textIncludes techStack "machine learning"
      || textIncludes techStack "ai model" then s2 - 15 else s2
  let s4 := if textIncludes techStack "iot" || textIncludes techStack "hardware"
      || textIncludes techStack "embedded" then s3 - 20 else s3
  max 0 (min 100 s4)

def highPaymentSignals : List String :=
  ["money", "cost", "expensive", "hours", "time", "revenue", "clients"]

def calculatePaymentPotential (idea : MicroSaaSIdea) : ℚ :=
  let vertical := lowerChars idea.vertical
  let problem := lowerChars idea.problem
  let s0 : ℚ := 50
  let s1 := if textIncludes vertical "enterprise" || textIncludes vertical "business"
      || textIncludes vertical "agency" then s0 + 20 else s0
  let matched := (highPaymentSignals.filter (fun kw => textIncludes problem kw)).length
  let s2 := s1 + matched * 5
  let s3 := match idea.leadUserIndicators with
    | some inds => if inds.length > 0 then s2 + inds.length * 8 else s2
    | none => s2
  max 0 (min 100 s3)

def nicheIndicators : List String :=
  ["niche", "specific", "specialized", "freelancer", "small business"]

def broadIndicators : List String := ["enterprise", "global", "all industries"]

def calculateMarketSize (idea : MicroSaaSIdea) : ℚ :=
  let vertical := lowerChars idea.vertical
  let s0 : ℚ := 50
  let s1 := if nicheIndicators.any (fun kw => textIncludes vertical kw) then s0 + 15 else s0
  let s2 := if broadIndicators.any (fun kw => textIncludes vertical kw) then s1 - 10 else s1
  max 0 (min 100 s2)

def saturationSignals : List String := ["like competitors", "similar to", "another tool"]

def calculateCompetitionLevel (idea : MicroSaaSIdea) : ℚ :=
  let problem := lowerChars idea.problem
  let s0 : ℚ := 50
  let s1 := match idea.leadUserIndicators with
    | some inds => if inds.length > 0 then s0 + 15 else s0
    | none => s0
  let s2 := if idea.frictionSeverity = some .critical_pain then s1 + 10 else s1
  let s3 := if saturationSignals.any (fun kw => textIncludes problem kw) then s2 - 20 else s2
  max 0 (min 100 s3)

def fastStacks : List String :=
  ["no-code", "low-code", "supabase", "firebase", "vercel", "nextjs"]

def complexIndicators : List String := ["real-time", "video", "complex", "ml", "blockchain"]

def calculateImplementationSpeed (idea : MicroSaaSIdea) : ℚ :=
  let techStack := lowerChars idea.techStackSuggestion
  let s0 : ℚ := 50
  let s1 := if fastStacks.any (fun kw => textIncludes techStack kw) then s0 + 20 else s0
  let s2 := if textIncludes techStack "api" || textIncludes techStack "integration"
      then s1 + 10 else s1
  let s3 := if complexIndicators.any (fun kw => textIncludes techStack kw) then s2 - 15 else s2
  max 0 (min 100 s3)

def calculateConfidence (idea : MicroSaaSIdea) : ℚ :=
  let c0 : ℚ := 1/2
  let c1 := if idea.evidenceSource.length > 10 then c0 + 15/100 else c0
  let c2 := match idea.leadUserIndicators with
    | some inds => if inds.length > 0 then c1 + 1/10 else c1
    | none => c1
  let c3 := if idea.frictionSeverity.isSome then c2 + 1/10 else c2
  let c4 := if idea.jtbd ≠ "" && containsSub idea.jtbd.data "want to".data
      && containsSub idea.jtbd.data "so I can".data then c3 + 15/100 else c3
  let c5 := if jsTruthy idea.revenueVerified then c4 + 2/10 else c4
  let c6 := match idea.estimatedMRR with
    | some m => if m > 0 then c5 + 1/10 else c5
    | none => c5
  min 1 c6

/-- Local `baseScore = idea.potentialScore || 50` (0 is falsy). -/
def baseScoreOf (idea : MicroSaaSIdea) : ℚ :=
  if idea.potentialScore = 0 then 50 else idea.potentialScore

/-- The `breakdown` record of the five dimension scores. -/
def breakdownOf (idea : MicroSaaSIdea) : ScoreBreakdown :=
  { accessibility := calculateAccessibility idea
    paymentPotential := calculatePaymentPotential idea
    marketSize := calculateMarketSize idea
    competitionLevel := calculateCompetitionLevel idea
    implementationSpeed := calculateImplementationSpeed idea }

/-- Local `weightedScore`, the weighted sum of the five dimensions. -/
def weightedScoreOf (idea : MicroSaaSIdea) (weights : ScoringWeights) : ℚ :=
  (breakdownOf idea).accessibility * weights.accessibility +
  (breakdownOf idea).paymentPotential * weights.paymentPotential +
  (breakdownOf idea).marketSize * weights.marketSize +
  (breakdownOf idea).competitionLevel * weights.competitionLevel +
  (breakdownOf idea).implementationSpeed * weights.implementationSpeed

/-- Local `frictionMultiplier`. -/
def frictionMultiplierOf (idea : MicroSaaSIdea) : ℚ :=
  match idea.frictionSeverity with
  | some fs => FRICTION_MULTIPLIERS fs
  | none => 1

/-- Local `leadUserBonus`, the reduce over the indicators. -/
def leadUserBonusOf (idea : MicroSaaSIdea) : ℚ :=
  match idea.leadUserIndicators with
  | some inds => inds.foldl (fun sum ind => sum + LEAD_USER_BONUS ind.sophisticationLevel) 0
  | none => 0

def importBonusOf (idea : MicroSaaSIdea) : ℚ :=
  if jsTruthy idea.isImportOpportunity then IMPORT_OPPORTUNITY_BONUS else 0

def revenueBonusOf (idea : MicroSaaSIdea) : ℚ :=
  if jsTruthy idea.revenueVerified then REVENUE_VERIFIED_BONUS else 0

/-- The raw combined total handed to `Math.round`. -/
def rawTotalOf (idea : MicroSaaSIdea) (weights : ScoringWeights) : ℚ :=
  (baseScoreOf idea * (4/10) + weightedScoreOf idea weights * (6/10))
    * frictionMultiplierOf idea
  + leadUserBonusOf idea + importBonusOf idea + revenueBonusOf idea
  + calculateMRRBonus idea.estimatedMRR

/-- `calculateScore(idea, weights)`: blend of the model-supplied base score
and the weighted dimension scores, friction multiplier, flat bonuses,
rounded and capped at 100 by `Math.min(100, Math.round(total))`. -/
def calculateScore (idea : MicroSaaSIdea) (weights : ScoringWeights) : ScoringResult :=
  { totalScore := min 100 (jsRound (rawTotalOf idea weights))
    breakdown := breakdownOf idea
    confidence := calculateConfidence idea }

/-- `getWeightsForProfile(profile)`. -/
def getWeightsForProfile : String → ScoringWeights
  | "solo_dev" =>
    { accessibility := 35/100, paymentPotential := 25/100, marketSize := 10/100
      competitionLevel := 15/100, implementationSpeed := 15/100 }
  | "agency" =>
    { accessibility := 10/100, paymentPotential := 35/100, marketSize := 25/100
      competitionLevel := 20/100, implementationSpeed := 10/100 }
  | _ =>
    { accessibility := 20/100, paymentPotential := 30/100, marketSize := 20/100
      competitionLevel := 15/100, implementationSpeed := 15/100 }

def englishOnlySignals : List String :=
  ["us only", "usa only", "uk only", "english only", "us market", "north america"]

def spanishMarketSignals : List String :=
  ["español", "spanish", "latam", "latinoamerica", "mexico", "argentina",
   "colombia", "españa", "spain"]

/-- `detectImportOpportunity(idea)`: explicit English-only signal, or no
Spanish-market signal at all. -/
def detectImportOpportunity (idea : MicroSaaSIdea) : Bool :=
  let text := lowerChars (idea.title ++ " " ++ idea.problem ++ " " ++ idea.jtbd)
  let hasEnglishOnlySignal := englishOnlySignals.any (fun s => containsSub text s.data)
  let hasSpanishMarketSignal := spanishMarketSignals.any (fun s => containsSub text s.data)
  hasEnglishOnlySignal || !hasSpanishMarketSignal

/-! ## Quota-tracked search client (src/services/sources/serper.ts) -/

def SERPER_MAX_QUERIES : Nat := 2500

def SERPER_SAFETY_BUFFER : Nat := 100

/-- Persisted usage record `{count, firstUsed, lastUsed, disabled}`. -/
structure SerperUsage where
  count : Nat
  firstUsed : Int
  lastUsed : Int
  disabled : Bool
deriving DecidableEq, Repr

/-- The default record returned by `getUsage()` when nothing is stored. -/
def initialSerperUsage : SerperUsage :=
  { count := 0, firstUsed := 0, lastUsed := 0, disabled := false }

/-- `resetSerperUsage()` writes back the zeroed record. -/
def resetSerperUsage : SerperUsage := initialSerperUsage

/-- `canUseSerper()`: configured, not disabled, and strictly below
`MAX - SAFETY_BUFFER`. -/
def canUseSerper (configured : Bool) (u : SerperUsage) : Bool :=
  configured && (!u.disabled && decide (u.count < SERPER_MAX_QUERIES - SERPER_SAFETY_BUFFER))

/-- `incrementUsage()`: refuse when disabled, disable at the safety limit,
otherwise increment and stamp times.  Returns whether the query may
proceed together with the persisted state. -/
def incrementUsage (now : Int) (u : SerperUsage) : Bool × SerperUsage :=
  if u.disabled then (false, u)
  else if SERPER_MAX_QUERIES - SERPER_SAFETY_BUFFER ≤ u.count then
    (false, { u with disabled := true })
  else
    (true,
      { u with
        count := u.count + 1
        lastUsed := now
        firstUsed := if u.firstUsed = 0 then now else u.firstUsed })

/-- `getSerperUsageStats()`. -/
def getSerperUsageStats (u : SerperUsage) :
    Nat × Nat × Nat × Bool :=
  let effectiveLimit := SERPER_MAX_QUERIES - SERPER_SAFETY_BUFFER
  (u.count, effectiveLimit - u.count, effectiveLimit, u.disabled)

/-- One `searchGoogle(query)` call as a state transition: the API-key check,
the `canUseSerper()` gate and the `incrementUsage()` call, in source order.
Returns the persisted state and whether a network request was issued.
The network outcome itself does not touch the usage record. -/
def searchGoogleStep (configured : Bool) (now : Int) (u : SerperUsage) :
    SerperUsage × Bool :=
  if !configured then (u, false)
  else if !canUseSerper configured u then (u, false)
  else
    match incrementUsage now u with
    | (false, u') => (u', false)
    | (true, u') => (u', true)

/-- State after `n` consecutive `searchGoogle` calls starting from the
zeroed record, with the provider configured; `times` gives `Date.now()`
at each call. -/
def searchGoogleIter (times : Nat → Int) : Nat → SerperUsage
  | 0 => initialSerperUsage
  | n + 1 => (searchGoogleStep true (times n) (searchGoogleIter times n)).1

/-! ## Resilient fetch client (CORS proxy utility) -/

/-- A fetched response: HTTP status plus opaque body.  `response.ok` is
status in [200, 300). -/
structure Response where
  status : Nat
  body : String
deriving DecidableEq, Repr

def Response.ok (r : Response) : Bool := decide (200 ≤ r.status) && decide (r.status < 300)

/-- The four proxy strategies, by name and order, from `CORS_PROXIES`.
URL rewriting is not modelled: the network oracle below is keyed by the
strategy's index. -/
def CORS_PROXIES : List String :=
  ["corsproxy.io", "allorigins.win", "codetabs", "corsproxy-alt"]

/-- `proxyFailures.get(name) || 0` on the failure-counter map. -/
def mapGet (m : List (String × Nat)) (k : String) : Nat :=
  match m.find? (fun p => p.1 == k) with
  | some p => p.2
  | none => 0

/-- `proxyFailures.set(name, v)`: overwrite in place, else append. -/
def mapSet (m : List (String × Nat)) (k : String) (v : Nat) : List (String × Nat) :=
  if m.any (fun p => p.1 == k) then
    m.map (fun p => if p.1 == k then (k, v) else p)
  else m ++ [(k, v)]

/-- Module-level mutable state of the proxy utility. -/
structure ProxyState where
  currentProxyIndex : Nat
  proxyFailures : List (String × Nat)
deriving DecidableEq, Repr

def initialProxyState : ProxyState := { currentProxyIndex := 0, proxyFailures := [] }

/-- Outcome of one `fetch(proxiedUrl, ...)`: a settled response or a thrown
network error with its message. -/
def FetchOutcome := Except String Response

/-- Error message recorded for a failing attempt through a given proxy. -/
def proxyErrorMessage (name : String) : FetchOutcome → String
  | .ok r => name ++ " returned " ++ toString r.status
  | .error e => e

/-- Whether a settled fetch outcome counts as a failure for the loop:
a thrown error, or a response with a non-success status. -/
def outcomeFails : FetchOutcome → Bool
  | .ok r => !r.ok
  | .error _ => true

/-- The attempt loop of `fetchWithCorsProxy`
(`for attempt in 0..<CORS_PROXIES.length`), one iteration per entry of the
attempt list.  `net` is the network oracle keyed by proxy index. -/
def fetchLoop (net : Nat → FetchOutcome) :
    List Nat → ProxyState → List String → Except (List String) Response × ProxyState
  | [], st, errors => (.error errors, st)
  | attempt :: rest, st, errors =>
    let proxyIndex := (st.currentProxyIndex + attempt) % CORS_PROXIES.length
    let name := CORS_PROXIES.getD proxyIndex ""
    let failures := mapGet st.proxyFailures name
    if 3 ≤ failures ∧ attempt < CORS_PROXIES.length - 1 then
      fetchLoop net rest st errors
    else
      match net proxyIndex with
      | .ok response =>
        if response.ok then
          (.ok response,
            { currentProxyIndex := proxyIndex
              proxyFailures := mapSet st.proxyFailures name 0 })
        else
          fetchLoop net rest
            { st with proxyFailures := mapSet st.proxyFailures name (failures + 1) }
            (errors ++ [name ++ " returned " ++ toString response.status])
      | .error e =>
        fetchLoop net rest
          { st with proxyFailures := mapSet st.proxyFailures name (failures + 1) }
          (errors ++ [e])

/-- `fetchWithCorsProxy(url)`: iterate the strategies starting from the
last-known-good index, skipping over-failed strategies except on the final
attempt; on success record the winner and reset its counter; when every
strategy is exhausted, fail with the aggregate list of causes. -/
def fetchWithCorsProxy (net : Nat → FetchOutcome) (st : ProxyState) :
    Except (List String) Response × ProxyState :=
  fetchLoop net [0, 1, 2, 3] st []

/-! ## Aggregation orchestrator (aggregateOpportunityData) -/

/-- Normalized unit of external signal. -/
structure EvidenceItem where
  id : String
  source : String
  title : String
  content : String
  url : String
  score : Int
  timestamp : Int
  author : Option String := none
  tags : List String := []
  isImportOpportunity : Option Bool := none
deriving DecidableEq, Repr

/-- Result bundle of one aggregation run. -/
structure AggregatedData where
  painPoints : List EvidenceItem
  leadUserSignals : List EvidenceItem
  competitors : List EvidenceItem
  trendingTopics : List EvidenceItem
  sourcesUsed : List String
  totalItems : Nat
deriving DecidableEq, Repr

/-- The ordering imposed by `.sort((a, b) => b.score - a.score)`. -/
def scoreGE (a b : EvidenceItem) : Prop := b.score ≤ a.score

instance : DecidableRel scoreGE := fun a b => inferInstanceAs (Decidable (b.score ≤ a.score))

instance : IsTotal EvidenceItem scoreGE := ⟨fun a b => le_total b.score a.score⟩

instance : IsTrans EvidenceItem scoreGE := ⟨fun _ _ _ h1 h2 => le_trans h2 h1⟩

/-- Stable descending sort by `score`, the result of the JavaScript
stable `Array.sort` under the comparator above. -/
def sortByScoreDesc (l : List EvidenceItem) : List EvidenceItem := List.insertionSort scoreGE l

/-- One `Map.set` during `new Map(arr.map(item => [item.id, item]))`:
an existing key keeps its position but takes the new value, a new key is
appended.  -/
def insertEntry (acc : List EvidenceItem) (item : EvidenceItem) : List EvidenceItem :=
  if acc.any (fun x => x.id == item.id) then
    acc.map (fun x => if x.id == item.id then item else x)
  else acc ++ [item]

/-- `dedupe(arr) = Array.from(new Map(arr.map(item => [item.id, item])).values())`. -/
def dedupe (arr : List EvidenceItem) : List EvidenceItem := arr.foldl insertEntry []

/-- `.catch(silentCatch([]))` applied to an adapter call's settled outcome:
a rejection is absorbed into the empty list. -/
def catchSilent : Except String (List EvidenceItem) → List EvidenceItem
  | .ok l => l
  | .error _ => []

/-- Settled results of the third-wave Serper-powered block.  The six
trailing calls carry their own `.catch(() => [])`, so their failures are
already absorbed here; a rejection of `serperAggregate` or
`searchLeadUserSignals` rejects the whole block instead (outer
try/catch). -/
structure SerperWaveResults where
  serperPainReddit : List EvidenceItem
  serperPainQuora : List EvidenceItem
  serperPainForums : List EvidenceItem
  serperLeadUsers : List EvidenceItem
  g2Gaps : List EvidenceItem
  capterraGaps : List EvidenceItem
  alternatives : List EvidenceItem
  quoraPainPoints : List EvidenceItem
  mediumPainPoints : List EvidenceItem
  mediumBuilt : List EvidenceItem
deriving DecidableEq, Repr

/-- Settled outcome of every adapter call one run can issue, already mapped
to the unified evidence shape (the per-provider `...ToEvidence` mappings
are bijective renamings of provider records and are not re-modelled). -/
structure AdapterOutcomes where
  redditPainPoints : Except String (List EvidenceItem)
  redditQuestions : Except String (List EvidenceItem)
  hnAskPosts : Except String (List EvidenceItem)
  hnComments : Except String (List EvidenceItem)
  hnShowPosts : Except String (List EvidenceItem)
  devtoPainPoints : Except String (List EvidenceItem)
  githubFeatures : Except String (List EvidenceItem)
  githubBugs : Except String (List EvidenceItem)
  soQuestions : Except String (List EvidenceItem)
  soHighDemand : Except String (List EvidenceItem)
  ihPainPoints : Except String (List EvidenceItem)
  ihIdeas : Except String (List EvidenceItem)
  lobstersPainPoints : Except String (List EvidenceItem)
  lobstersShow : Except String (List EvidenceItem)
  hashnodePainPoints : Except String (List EvidenceItem)
  hashnodeProjects : Except String (List EvidenceItem)
  betalistSaaS : Except String (List EvidenceItem)
  betalistImport : Except String (List EvidenceItem)
  oasisSaaS : Except String (List EvidenceItem)
  oasisVertical : Except String (List EvidenceItem)
  productHunt : Except String (List EvidenceItem × List EvidenceItem)
  serper : Except String SerperWaveResults

/-- The cancellation signal's value at the three points where
`aggregateOpportunityData` reads `signal.aborted`. -/
structure AbortSignal where
  abortedAtStart : Bool
  abortedAfterWave1 : Bool
  abortedAfterWave2 : Bool
deriving DecidableEq, Repr

/-- Failures an aggregation run could in principle surface: the
`AbortError` thrown on cancellation, or a provider failure. -/
inductive RunError where
  | aborted
  | provider (msg : String)
deriving DecidableEq, Repr

/-- Providers contacted by the first `Promise.all` wave, one entry per
adapter call, in source order. -/
def wave1Providers : List String :=
  ["reddit", "reddit", "hackernews", "hackernews", "hackernews", "devto",
   "github", "github", "stackoverflow", "stackoverflow"]

/-- Providers contacted by the second (CORS-proxied) wave. -/
def wave2Providers : List String :=
  ["indiehackers", "indiehackers", "lobsters", "lobsters", "hashnode", "hashnode",
   "betalist", "betalist", "oasisofideas", "oasisofideas"]

def productHuntProviders : List String := ["producthunt", "producthunt"]

def serperProviders : List String :=
  ["serper", "serper", "g2", "capterra", "alternativeto", "quora", "medium", "medium"]

/-- The hard-coded initial value of the `sourcesUsed` accumulator. -/
def initialSourcesUsed : List String :=
  ["hackernews", "devto", "github", "stackoverflow", "indiehackers", "lobsters",
   "hashnode", "betalist", "oasisofideas"]

/-- `sourcesUsed` as returned: the initial list plus the optional pushes. -/
def finalSourcesUsed (useSerper useProductHunt : Bool) : List String :=
  initialSourcesUsed
  ++ (if useProductHunt then ["producthunt"] else [])
  ++ (if useSerper then ["serper", "g2", "capterra", "alternativeto", "quora", "medium"] else [])

def leadUserKeywords : List String :=
  ["script", "python", "macro", "excel", "sheets", "zapier", "automation",
   "built my own", "custom"]

/-- Secondary heuristic sweep: every pain point whose title+content matches
the lead-user lexicon is additionally copied into `leadUserSignals`,
tagged `lead-user`. -/
def leadUserSweep (painPoints : List EvidenceItem) : List EvidenceItem :=
  painPoints.filterMap (fun item =>
    let contentLower := lowerChars (item.title ++ " " ++ item.content)
    if leadUserKeywords.any (fun kw => textIncludes contentLower kw) then
      some { item with tags := item.tags ++ ["lead-user"] }
    else none)

/-- The `painPoints` accumulator right before deduplication, in push
order: wave 1 (reddit guarded, HN, DEV.to, GitHub bugs, Stack Overflow),
wave 2 (IndieHackers, Lobsters, Hashnode, all guarded), then the
Serper-powered block. -/
def mergedPainPoints (useSerper : Bool) (maxItemsPerSource : Nat)
    (A : AdapterOutcomes) : List EvidenceItem :=
  (let l := catchSilent A.redditPainPoints
   if l.length > 0 then l.take maxItemsPerSource else [])
  ++ (catchSilent A.hnAskPosts).take maxItemsPerSource
  ++ (catchSilent A.hnComments).take maxItemsPerSource
  ++ (catchSilent A.devtoPainPoints).take maxItemsPerSource
  ++ (catchSilent A.githubBugs).take maxItemsPerSource
  ++ (catchSilent A.soQuestions).take maxItemsPerSource
  ++ (let l := catchSilent A.ihPainPoints
      if l.length > 0 then l.take maxItemsPerSource else [])
  ++ (let l := catchSilent A.lobstersPainPoints
      if l.length > 0 then l.take maxItemsPerSource else [])
  ++ (let l := catchSilent A.hashnodePainPoints
      if l.length > 0 then l.take maxItemsPerSource else [])
  ++ (if useSerper then
        match A.serper with
        | .ok s =>
          s.serperPainReddit ++ s.serperPainQuora ++ s.serperPainForums
          ++ s.g2Gaps.take maxItemsPerSource
          ++ s.capterraGaps.take maxItemsPerSource
          ++ s.quoraPainPoints.take maxItemsPerSource
          ++ s.mediumPainPoints.take maxItemsPerSource
        | .error _ => []
      else [])

/-- The `leadUserSignals` accumulator before the heuristic sweep. -/
def mergedLeadUserSignalsBase (useSerper : Bool) (maxItemsPerSource : Nat)
    (A : AdapterOutcomes) : List EvidenceItem :=
  (let l := catchSilent A.redditQuestions
   if l.length > 0 then l.take maxItemsPerSource else [])
  ++ (catchSilent A.githubFeatures).take maxItemsPerSource
  ++ (catchSilent A.soHighDemand).take maxItemsPerSource
  ++ (let l := catchSilent A.ihIdeas
      if l.length > 0 then l.take maxItemsPerSource else [])
  ++ (let l := catchSilent A.oasisSaaS
      if l.length > 0 then l.take maxItemsPerSource else [])
  ++ (if useSerper then
        match A.serper with
        | .ok s => s.serperLeadUsers ++ s.mediumBuilt.take maxItemsPerSource
        | .error _ => []
      else [])

/-- The `leadUserSignals` accumulator right before deduplication. -/
def mergedLeadUserSignals (useSerper : Bool) (maxItemsPerSource : Nat)
    (A : AdapterOutcomes) : List EvidenceItem :=
  mergedLeadUserSignalsBase useSerper maxItemsPerSource A
  ++ leadUserSweep (mergedPainPoints useSerper maxItemsPerSource A)

/-- The `competitors` accumulator right before deduplication. -/
def mergedCompetitors (useSerper useProductHunt : Bool) (maxItemsPerSource : Nat)
    (A : AdapterOutcomes) : List EvidenceItem :=
  (catchSilent A.hnShowPosts).take maxItemsPerSource
  ++ (let l := catchSilent A.lobstersShow
      if l.length > 0 then l.take maxItemsPerSource else [])
  ++ (let l := catchSilent A.betalistSaaS
      if l.length > 0 then l.take maxItemsPerSource else [])
  ++ (if useProductHunt then
        match A.productHunt with
        | .ok ph => ph.2.take maxItemsPerSource
        | .error _ => []
      else [])
  ++ (if useSerper then
        match A.serper with
        | .ok s => s.alternatives.take maxItemsPerSource
        | .error _ => []
      else [])

/-- The `trendingTopics` accumulator right before deduplication; the
BetaList candidates are flagged `isImportOpportunity` as they are pushed. -/
def mergedTrendingTopics (useSerper useProductHunt : Bool) (maxItemsPerSource : Nat)
    (A : AdapterOutcomes) : List EvidenceItem :=
  (let l := catchSilent A.hashnodeProjects
   if l.length > 0 then l.take maxItemsPerSource else [])
  ++ (let l := catchSilent A.betalistImport
      if l.length > 0 then
        (l.map (fun e => { e with isImportOpportunity := some true })).take maxItemsPerSource
      else [])
  ++ (let l := catchSilent A.oasisVertical
      if l.length > 0 then l.take maxItemsPerSource else [])
  ++ (if useProductHunt then
        match A.productHunt with
        | .ok ph => ph.1.take maxItemsPerSource
        | .error _ => []
      else [])

/-- `aggregateOpportunityData(vertical, options)`.  The first component
lists the provider of every adapter call the run issued (observability of
"zero network calls" under cancellation); the second is the settled
outcome: the `AbortError` path or the returned bundle.  Cancellation is
read at the three wave boundaries; every adapter failure is absorbed by
the `.catch` / try-catch structure mirrored in the merge functions. -/
def aggregateOpportunityData (useSerper useProductHunt : Bool) (maxItemsPerSource : Nat)
    (signal : AbortSignal) (A : AdapterOutcomes) :
    List String × Except RunError AggregatedData :=
  if signal.abortedAtStart then ([], .error .aborted)
  else
    let calls1 := wave1Providers
    if signal.abortedAfterWave1 then (calls1, .error .aborted)
    else
      let calls2 := calls1 ++ wave2Providers
      if signal.abortedAfterWave2 then (calls2, .error .aborted)
      else
        let calls3 := calls2
          ++ (if useProductHunt then productHuntProviders else [])
          ++ (if useSerper then serperProviders else [])
        let painPoints := mergedPainPoints useSerper maxItemsPerSource A
        let leadUserSignals := mergedLeadUserSignals useSerper maxItemsPerSource A
        let competitors := mergedCompetitors useSerper useProductHunt maxItemsPerSource A
        let trendingTopics := mergedTrendingTopics useSerper useProductHunt maxItemsPerSource A
        (calls3,
          .ok
            { painPoints := sortByScoreDesc (dedupe painPoints)
              leadUserSignals := sortByScoreDesc (dedupe leadUserSignals)
              competitors := sortByScoreDesc (dedupe competitors)
              trendingTopics := sortByScoreDesc (dedupe trendingTopics)
              sourcesUsed := finalSourcesUsed useSerper useProductHunt
              totalItems :=
                painPoints.length + leadUserSignals.length
                + competitors.length + trendingTopics.length })

/-! ## Concrete fixtures used to instantiate the theorems -/

/-- An idea whose free-text fields match no scoring keyword. -/
def ideaPlain : MicroSaaSIdea :=
  { title := "x", problem := "x", jtbd := "x", vertical := "x", evidenceSource := "x",
    potentialScore := 50, techStackSuggestion := "x" }

/-- A weight vector that is negative in every dimension. -/
def negWeights : ScoringWeights :=
  { accessibility := -1, paymentPotential := -1, marketSize := -1,
    competitionLevel := -1, implementationSpeed := -1 }

/-- The friction-multiplier scenario idea: critical pain, base 60, no
bonuses, keyword-free text. -/
def ideaScenario : MicroSaaSIdea :=
  { ideaPlain with potentialScore := 60,
                   frictionSeverity := some FrictionSeverity.critical_pain }

/-- Nonnegative weights summing to 1 that put no weight on the competition
dimension. -/
def scenarioWeights : ScoringWeights :=
  { accessibility := 1/4, paymentPotential := 1/4, marketSize := 1/4,
    competitionLevel := 0, implementationSpeed := 1/4 }

/-- A generic English-language idea with neither Spanish-market nor
English-only signals in its text. -/
def ideaGeneric : MicroSaaSIdea :=
  { title := "invoice tool", problem := "slow billing for freelancers",
    jtbd := "get paid faster", vertical := "freelancer", evidenceSource := "hn",
    potentialScore := 50, techStackSuggestion := "react" }

def itemA1 : EvidenceItem :=
  { id := "hn-1", source := "hackernews", title := "first", content := "aa",
    url := "u", score := 5, timestamp := 0 }

/-- Same id as `itemA1`, different payload. -/
def itemA2 : EvidenceItem := { itemA1 with title := "second" }

/-- Every adapter call rejects. -/
def allFailOutcomes : AdapterOutcomes :=
  { redditPainPoints := .error "down", redditQuestions := .error "down"
    hnAskPosts := .error "down", hnComments := .error "down", hnShowPosts := .error "down"
    devtoPainPoints := .error "down", githubFeatures := .error "down"
    githubBugs := .error "down", soQuestions := .error "down", soHighDemand := .error "down"
    ihPainPoints := .error "down", ihIdeas := .error "down"
    lobstersPainPoints := .error "down", lobstersShow := .error "down"
    hashnodePainPoints := .error "down", hashnodeProjects := .error "down"
    betalistSaaS := .error "down", betalistImport := .error "down"
    oasisSaaS := .error "down", oasisVertical := .error "down"
    productHunt := .error "down", serper := .error "down" }

/-- One adapter (Ask HN) yields the same item twice; everything else fails. -/
def dupOutcomes : AdapterOutcomes :=
  { allFailOutcomes with hnAskPosts := .ok [itemA1, itemA2] }

def sigLive : AbortSignal :=
  { abortedAtStart := false, abortedAfterWave1 := false, abortedAfterWave2 := false }

def sigPre : AbortSignal :=
  { abortedAtStart := true, abortedAfterWave1 := false, abortedAfterWave2 := false }

/-- Bundle returned when every adapter fails. -/
def emptyBundle : AggregatedData :=
  { painPoints := [], leadUserSignals := [], competitors := [], trendingTopics := []
    sourcesUsed := initialSourcesUsed, totalItems := 0 }

/-- Bundle returned on the duplicate-item run: one deduplicated pain point
(the last-seen instance) but `totalItems = 2`. -/
def dupBundle : AggregatedData :=
  { painPoints := [itemA2], leadUserSignals := [], competitors := [], trendingTopics := []
    sourcesUsed := initialSourcesUsed, totalItems := 2 }

def respW : Response := { status := 200, body := "payload" }

/-- Strategy 1 always throws; every other strategy succeeds. -/
def netW : Nat → FetchOutcome := fun i => if i = 0 then .error "corsproxy.io down" else .ok respW

/-- Every strategy throws. -/
def netF : Nat → FetchOutcome := fun _ => .error "down"

/-! ## Properties of `dedupe` and `sortByScoreDesc` -/

theorem jsRound_eq_floor (q : ℚ) : jsRound q = ⌊q + 1/2⌋ := by
  rw [jsRound, Rat.floor_def]

theorem insertEntry_ids_of_any (acc : List EvidenceItem) (a : EvidenceItem)
    (h : acc.any (fun x => x.id == a.id) = true) :
    (insertEntry acc a).map (fun x => x.id) = acc.map (fun x => x.id) := by
  simp only [insertEntry, h, if_true]
  rw [List.map_map]
  apply List.map_congr_left
  intro x _
  simp only [Function.comp_apply]
  by_cases hb : (x.id == a.id) = true
  · rw [if_pos hb]
    exact (eq_of_beq hb).symm
  · rw [if_neg hb]

theorem foldl_insertEntry_spec (arr : List EvidenceItem) :
    ∀ acc p : List EvidenceItem,
    (acc.map (fun x => x.id)).Nodup →
    (∀ x ∈ acc, (p.filter (fun y => y.id == x.id)).getLast? = some x) →
    (∀ x ∈ acc, x.id ∈ p.map (fun y => y.id)) →
    (∀ i ∈ p.map (fun y => y.id), i ∈ acc.map (fun x => x.id)) →
    ((arr.foldl insertEntry acc).map (fun x => x.id)).Nodup ∧
      ∀ x ∈ arr.foldl insertEntry acc,
        ((p ++ arr).filter (fun y => y.id == x.id)).getLast? = some x := by
  induction arr with
  | nil =>
    intro acc p h1 h2 _ _
    exact ⟨h1, by simpa using h2⟩
  | cons a arr ih =>
    intro acc p h1 h2 h3 h4
    have key : p ++ a :: arr = (p ++ [a]) ++ arr := by simp
    rw [List.foldl_cons, key]
    by_cases hmem : acc.any (fun x => x.id == a.id) = true
    · have hids := insertEntry_ids_of_any acc a hmem
      have hins : insertEntry acc a = acc.map (fun x => if x.id == a.id then a else x) := by
        simp only [insertEntry, hmem, if_true]
      apply ih
      · rw [hids]; exact h1
      · intro x hx
        rw [hins] at hx
        rcases List.mem_map.mp hx with ⟨y, hy, hxy⟩
        by_cases hb : (y.id == a.id) = true
        · rw [if_pos hb] at hxy
          subst hxy
          rw [List.filter_append, List.getLast?_append]
          simp
        · rw [if_neg hb] at hxy
          subst hxy
          have hne : (a.id == y.id) = false := by
            cases hab : (a.id == y.id) with
            | false => rfl
            | true => exact absurd (beq_of_eq (eq_of_beq hab).symm) hb
          rw [List.filter_append, List.getLast?_append]
          have : List.filter (fun z => z.id == y.id) [a] = [] := by
            simp [List.filter, hne]
          rw [this]
          simpa using h2 y hy
      · intro x hx
        rw [hins] at hx
        rcases List.mem_map.mp hx with ⟨y, hy, hxy⟩
        by_cases hb : (y.id == a.id) = true
        · rw [if_pos hb] at hxy
          subst hxy
          simp
        · rw [if_neg hb] at hxy
          subst hxy
          rw [List.map_append]
          exact List.mem_append_left _ (h3 y hy)
      · intro i hi
        rw [hids]
        rw [List.map_append] at hi
        rcases List.mem_append.mp hi with hp | ha
        · exact h4 i hp
        · rcases List.any_eq_true.mp hmem with ⟨x, hxacc, hxid⟩
          have : i = a.id := by simpa using ha
          rw [this, ← eq_of_beq hxid]
          exact List.mem_map_of_mem _ hxacc
    · have hins : insertEntry acc a = acc ++ [a] := by
        simp only [insertEntry]
        rw [if_neg hmem]
      have hnotin : a.id ∉ acc.map (fun x => x.id) := by
        intro hc
        rcases List.mem_map.mp hc with ⟨x, hxacc, hxid⟩
        exact hmem (List.any_eq_true.mpr ⟨x, hxacc, beq_of_eq hxid⟩)
      have hnotp : a.id ∉ p.map (fun y => y.id) := fun hc => hnotin (h4 _ hc)
      apply ih
      · rw [hins, List.map_append]
        simp only [List.map_cons, List.map_nil]
        rw [List.nodup_append]
        refine ⟨h1, List.nodup_singleton _, ?_⟩
        intro i hi hi2
        have hia : i = a.id := by simpa using hi2
        exact hnotin (hia ▸ hi)
      · intro x hx
        rw [hins] at hx
        rcases List.mem_append.mp hx with hxacc | hxa
        · have hne : (a.id == x.id) = false := by
            apply Bool.eq_false_iff.mpr
            intro hc
            exact hnotin ((eq_of_beq hc) ▸ List.mem_map_of_mem _ hxacc)
          rw [List.filter_append, List.getLast?_append]
          have : List.filter (fun z => z.id == x.id) [a] = [] := by
            simp [List.filter, hne]
          rw [this]
          simpa using h2 x hxacc
        · have hxa' : x = a := by simpa using hxa
          subst hxa'
          have hfilp : List.filter (fun z => z.id == x.id) p = [] := by
            rw [List.filter_eq_nil_iff]
            intro y hy hc
            exact hnotp ((eq_of_beq hc) ▸ List.mem_map_of_mem _ hy)
          rw [List.filter_append, hfilp, List.getLast?_append]
          simp
      · intro x hx
        rw [hins] at hx
        rcases List.mem_append.mp hx with hxacc | hxa
        · rw [List.map_append]
          exact List.mem_append_left _ (h3 x hxacc)
        · have hxa' : x = a := by simpa using hxa
          subst hxa'
          rw [List.map_append]
          apply List.mem_append_right
          simp
      · intro i hi
        rw [List.map_append] at hi
        rw [hins, List.map_append]
        rcases List.mem_append.mp hi with hp | ha
        · exact List.mem_append_left _ (h4 i hp)
        · apply List.mem_append_right
          simpa using ha

/-- Each `id` appears at most once after `dedupe`. -/
theorem dedupe_ids_nodup (arr : List EvidenceItem) :
    ((dedupe arr).map (fun x => x.id)).Nodup :=
  (foldl_insertEntry_spec arr [] [] (by simp) (by simp) (by simp) (by simp)).1

/-- The instance `dedupe` keeps for an id is the last-seen one. -/
theorem dedupe_lastSeen (arr : List EvidenceItem) :
    ∀ x ∈ dedupe arr, (arr.filter (fun y => y.id == x.id)).getLast? = some x := by
  intro x hx
  have := (foldl_insertEntry_spec arr [] [] (by simp) (by simp) (by simp) (by simp)).2 x hx
  simpa using this

theorem dedupe_subset (arr : List EvidenceItem) : ∀ x ∈ dedupe arr, x ∈ arr := by
  intro x hx
  have h := dedupe_lastSeen arr x hx
  have : x ∈ arr.filter (fun y => y.id == x.id) := by
    rcases List.getLast?_eq_some_iff.mp h with ⟨l, hl⟩
    rw [hl]
    simp
  exact List.mem_of_mem_filter this

theorem insertEntry_length_le (acc : List EvidenceItem) (a : EvidenceItem) :
    (insertEntry acc a).length ≤ acc.length + 1 := by
  unfold insertEntry
  split
  · simp
  · simp

theorem foldl_insertEntry_length (arr : List EvidenceItem) :
    ∀ acc : List EvidenceItem, (arr.foldl insertEntry acc).length ≤ acc.length + arr.length := by
  induction arr with
  | nil => intro acc; simp
  | cons a arr ih =>
    intro acc
    rw [List.foldl_cons]
    calc (arr.foldl insertEntry (insertEntry acc a)).length
        ≤ (insertEntry acc a).length + arr.length := ih _
      _ ≤ acc.length + 1 + arr.length :=
          Nat.add_le_add_right (insertEntry_length_le acc a) _
      _ = acc.length + (a :: arr).length := by simp [Nat.add_assoc, Nat.add_comm 1]

/-- `dedupe` never lengthens a list. -/
theorem dedupe_length_le (arr : List EvidenceItem) : (dedupe arr).length ≤ arr.length := by
  simpa using foldl_insertEntry_length arr []

theorem sortByScoreDesc_perm (l : List EvidenceItem) : (sortByScoreDesc l).Perm l :=
  List.perm_insertionSort scoreGE l

/-- The result of the sort is descending by `score`. -/
theorem sortByScoreDesc_sorted (l : List EvidenceItem) :
    (sortByScoreDesc l).Sorted scoreGE :=
  List.sorted_insertionSort scoreGE l

theorem sortByScoreDesc_length (l : List EvidenceItem) :
    (sortByScoreDesc l).length = l.length :=
  (sortByScoreDesc_perm l).length_eq

theorem sortByScoreDesc_mem (l : List EvidenceItem) :
    ∀ x, x ∈ sortByScoreDesc l ↔ x ∈ l :=
  fun x => (sortByScoreDesc_perm l).mem_iff

/-- The full per-bucket pipeline keeps at most one item per id. -/
theorem bucket_ids_nodup (l : List EvidenceItem) :
    ((sortByScoreDesc (dedupe l)).map (fun x => x.id)).Nodup :=
  (((sortByScoreDesc_perm (dedupe l)).map (fun x => x.id)).symm).nodup (dedupe_ids_nodup l)

/-- The full per-bucket pipeline keeps exactly the last-seen instance of
each surviving id. -/
theorem bucket_lastSeen (l : List EvidenceItem) :
    ∀ x ∈ sortByScoreDesc (dedupe l),
      (l.filter (fun y => y.id == x.id)).getLast? = some x :=
  fun x hx => dedupe_lastSeen l x ((sortByScoreDesc_mem (dedupe l) x).mp hx)

theorem bucket_length_le (l : List EvidenceItem) :
    (sortByScoreDesc (dedupe l)).length ≤ l.length := by
  rw [sortByScoreDesc_length]
  exact dedupe_length_le l

/-! ## Properties of the scoring engine -/

theorem clamp01_nonneg (q : ℚ) : 0 ≤ max 0 (min 100 q) := le_max_left 0 _

theorem clamp01_le_100 (q : ℚ) : max 0 (min 100 q) ≤ 100 :=
  max_le (by norm_num) (min_le_left _ _)

theorem calculateAccessibility_bounds (idea : MicroSaaSIdea) :
    0 ≤ calculateAccessibility idea ∧ calculateAccessibility idea ≤ 100 := by
  unfold calculateAccessibility
  exact ⟨clamp01_nonneg _, clamp01_le_100 _⟩

theorem calculatePaymentPotential_bounds (idea : MicroSaaSIdea) :
    0 ≤ calculatePaymentPotential idea ∧ calculatePaymentPotential idea ≤ 100 := by
  unfold calculatePaymentPotential
  exact ⟨clamp01_nonneg _, clamp01_le_100 _⟩

theorem calculateMarketSize_bounds (idea : MicroSaaSIdea) :
    0 ≤ calculateMarketSize idea ∧ calculateMarketSize idea ≤ 100 := by
  unfold calculateMarketSize
  exact ⟨clamp01_nonneg _, clamp01_le_100 _⟩

theorem calculateCompetitionLevel_bounds (idea : MicroSaaSIdea) :
    0 ≤ calculateCompetitionLevel idea ∧ calculateCompetitionLevel idea ≤ 100 := by
  unfold calculateCompetitionLevel
  exact ⟨clamp01_nonneg _, clamp01_le_100 _⟩

theorem calculateImplementationSpeed_bounds (idea : MicroSaaSIdea) :
    0 ≤ calculateImplementationSpeed idea ∧ calculateImplementationSpeed idea ≤ 100 := by
  unfold calculateImplementationSpeed
  exact ⟨clamp01_nonneg _, clamp01_le_100 _⟩

theorem frictionMultiplierOf_pos (idea : MicroSaaSIdea) : 0 < frictionMultiplierOf idea := by
  unfold frictionMultiplierOf
  cases h : idea.frictionSeverity with
  | none => norm_num
  | some fs => cases fs <;> norm_num [FRICTION_MULTIPLIERS]

theorem LEAD_USER_BONUS_nonneg (n : Nat) : 0 ≤ LEAD_USER_BONUS n := by
  unfold LEAD_USER_BONUS
  split_ifs <;> norm_num

theorem leadUserFoldl_nonneg (l : List LeadUserIndicator) :
    ∀ s : ℚ, 0 ≤ s →
      0 ≤ l.foldl (fun sum ind => sum + LEAD_USER_BONUS ind.sophisticationLevel) s := by
  induction l with
  | nil => intro s hs; simpa using hs
  | cons a t ih =>
    intro s hs
    rw [List.foldl_cons]
    exact ih _ (add_nonneg hs (LEAD_USER_BONUS_nonneg _))

theorem leadUserBonusOf_nonneg (idea : MicroSaaSIdea) : 0 ≤ leadUserBonusOf idea := by
  unfold leadUserBonusOf
  cases h : idea.leadUserIndicators with
  | none => norm_num
  | some inds => exact leadUserFoldl_nonneg inds 0 le_rfl

theorem importBonusOf_nonneg (idea : MicroSaaSIdea) : 0 ≤ importBonusOf idea := by
  unfold importBonusOf
  split_ifs <;> norm_num [IMPORT_OPPORTUNITY_BONUS]

theorem revenueBonusOf_nonneg (idea : MicroSaaSIdea) : 0 ≤ revenueBonusOf idea := by
  unfold revenueBonusOf
  split_ifs <;> norm_num [REVENUE_VERIFIED_BONUS]

theorem MRR_TIER_BONUS_nonneg (t : String) : 0 ≤ MRR_TIER_BONUS t := by
  unfold MRR_TIER_BONUS
  split_ifs <;> norm_num

theorem calculateMRRBonus_nonneg (m : Option ℚ) : 0 ≤ calculateMRRBonus m := by
  cases m with
  | none => norm_num [calculateMRRBonus]
  | some q =>
    have hq : calculateMRRBonus (some q) =
        (if q ≤ 0 then 0
         else if 50000 ≤ q then MRR_TIER_BONUS "scale"
         else if 10000 ≤ q then MRR_TIER_BONUS "established"
         else if 1000 ≤ q then MRR_TIER_BONUS "growing"
         else MRR_TIER_BONUS "starter") := rfl
    rw [hq]
    split_ifs <;> first | exact MRR_TIER_BONUS_nonneg _ | norm_num

theorem weightedScoreOf_nonneg (idea : MicroSaaSIdea) (w : ScoringWeights)
    (ha : 0 ≤ w.accessibility) (hpay : 0 ≤ w.paymentPotential) (hm : 0 ≤ w.marketSize)
    (hc : 0 ≤ w.competitionLevel) (hs : 0 ≤ w.implementationSpeed) :
    0 ≤ weightedScoreOf idea w := by
  unfold weightedScoreOf
  exact add_nonneg (add_nonneg (add_nonneg (add_nonneg
    (mul_nonneg (calculateAccessibility_bounds idea).1 ha)
    (mul_nonneg (calculatePaymentPotential_bounds idea).1 hpay))
    (mul_nonneg (calculateMarketSize_bounds idea).1 hm))
    (mul_nonneg (calculateCompetitionLevel_bounds idea).1 hc))
    (mul_nonneg (calculateImplementationSpeed_bounds idea).1 hs)

theorem accessibility_of_x (idea : MicroSaaSIdea) (h : idea.techStackSuggestion = "x") :
    calculateAccessibility idea = 50 := by
  simp only [calculateAccessibility, h]
  rw [show (textIncludes (lowerChars "x") "react" || textIncludes (lowerChars "x") "vue"
      || textIncludes (lowerChars "x") "next") = false from rfl]
  rw [show (textIncludes (lowerChars "x") "postgres" || textIncludes (lowerChars "x") "firebase"
      || textIncludes (lowerChars "x") "supabase") = false from rfl]
  rw [show (textIncludes (lowerChars "x") "machine learning"
      || textIncludes (lowerChars "x") "ai model") = false from rfl]
  rw [show (textIncludes (lowerChars "x") "iot" || textIncludes (lowerChars "x") "hardware"
      || textIncludes (lowerChars "x") "embedded") = false from rfl]
  norm_num [min_def, max_def]

theorem payment_of_x (idea : MicroSaaSIdea) (hv : idea.vertical = "x")
    (hp : idea.problem = "x") (hl : idea.leadUserIndicators = none) :
    calculatePaymentPotential idea = 50 := by
  simp only [calculatePaymentPotential, hv, hp, hl]
  rw [show (textIncludes (lowerChars "x") "enterprise" || textIncludes (lowerChars "x") "business"
      || textIncludes (lowerChars "x") "agency") = false from rfl]
  rw [show (highPaymentSignals.filter fun kw => textIncludes (lowerChars "x") kw)
      = ([] : List String) from rfl]
  norm_num [min_def, max_def]

theorem market_of_x (idea : MicroSaaSIdea) (hv : idea.vertical = "x") :
    calculateMarketSize idea = 50 := by
  simp only [calculateMarketSize, hv]
  rw [show (nicheIndicators.any fun kw => textIncludes (lowerChars "x") kw) = false from rfl]
  rw [show (broadIndicators.any fun kw => textIncludes (lowerChars "x") kw) = false from rfl]
  norm_num [min_def, max_def]

theorem competition_of_x (idea : MicroSaaSIdea) (hp : idea.problem = "x")
    (hl : idea.leadUserIndicators = none) :
    calculateCompetitionLevel idea =
      (if idea.frictionSeverity = some FrictionSeverity.critical_pain then 60 else 50) := by
  simp only [calculateCompetitionLevel, hp, hl]
  rw [show (saturationSignals.any fun kw => textIncludes (lowerChars "x") kw) = false from rfl]
  by_cases hf : idea.frictionSeverity = some FrictionSeverity.critical_pain
  · rw [if_pos hf, if_pos hf]
    norm_num [min_def, max_def]
  · rw [if_neg hf, if_neg hf]
    norm_num [min_def, max_def]

theorem speed_of_x (idea : MicroSaaSIdea) (h : idea.techStackSuggestion = "x") :
    calculateImplementationSpeed idea = 50 := by
  simp only [calculateImplementationSpeed, h]
  rw [show (fastStacks.any fun kw => textIncludes (lowerChars "x") kw) = false from rfl]
  rw [show (textIncludes (lowerChars "x") "api"
      || textIncludes (lowerChars "x") "integration") = false from rfl]
  rw [show (complexIndicators.any fun kw => textIncludes (lowerChars "x") kw) = false from rfl]
  norm_num [min_def, max_def]

/-! ## Claim C3 -/

/-- C3 (amended): for every idea with nonnegative model-supplied
`potentialScore` and every componentwise-nonnegative weight vector,
`calculateScore` returns an integer `totalScore` within [0, 100]: the raw
combined total is rounded and capped above at 100 by
`Math.min(100, Math.round(total))`, and under these sign conditions it is
provably nonnegative.  The source contains no lower clamp, so the original
claim's "for any combination of inputs" fails for negative weights — see
the counterexample. -/
theorem calculateScore_totalScore_in_range (idea : MicroSaaSIdea) (w : ScoringWeights)
    (hp : 0 ≤ idea.potentialScore)
    (ha : 0 ≤ w.accessibility) (hpay : 0 ≤ w.paymentPotential) (hm : 0 ≤ w.marketSize)
    (hc : 0 ≤ w.competitionLevel) (hs : 0 ≤ w.implementationSpeed) :
    0 ≤ (calculateScore idea w).totalScore ∧ (calculateScore idea w).totalScore ≤ 100 := by
  have hbase : 0 ≤ baseScoreOf idea := by
    unfold baseScoreOf
    split_ifs
    · norm_num
    · exact hp
  have hws := weightedScoreOf_nonneg idea w ha hpay hm hc hs
  have hraw : 0 ≤ rawTotalOf idea w := by
    unfold rawTotalOf
    have h1 : 0 ≤ (baseScoreOf idea * (4/10) + weightedScoreOf idea w * (6/10))
        * frictionMultiplierOf idea :=
      mul_nonneg
        (add_nonneg (mul_nonneg hbase (by norm_num)) (mul_nonneg hws (by norm_num)))
        (le_of_lt (frictionMultiplierOf_pos idea))
    exact add_nonneg (add_nonneg (add_nonneg (add_nonneg h1
      (leadUserBonusOf_nonneg idea)) (importBonusOf_nonneg idea))
      (revenueBonusOf_nonneg idea)) (calculateMRRBonus_nonneg _)
  have hjs : 0 ≤ jsRound (rawTotalOf idea w) := by
    rw [jsRound_eq_floor]
    apply Int.floor_nonneg.mpr
    linarith
  constructor
  · show 0 ≤ min 100 (jsRound (rawTotalOf idea w))
    exact le_min (by norm_num) hjs
  · show min 100 (jsRound (rawTotalOf idea w)) ≤ 100
    exact min_le_left _ _

/-- C3 counterexample: at the explicit input `ideaPlain` with the
all-negative weight vector, `totalScore` is −130, outside [0, 100] — the
code caps only the upper end. -/
theorem calculateScore_negative_counterexample :
    (calculateScore ideaPlain negWeights).totalScore = -130 ∧
    (calculateScore ideaPlain negWeights).totalScore < 0 := by
  have hcomp : calculateCompetitionLevel ideaPlain = 50 := by
    rw [competition_of_x ideaPlain rfl rfl,
        show ideaPlain.frictionSeverity = (none : Option FrictionSeverity) from rfl,
        if_neg (by simp)]
  have hws : weightedScoreOf ideaPlain negWeights = -250 := by
    simp only [weightedScoreOf, breakdownOf, negWeights]
    rw [accessibility_of_x ideaPlain rfl, payment_of_x ideaPlain rfl rfl rfl,
        market_of_x ideaPlain rfl, hcomp, speed_of_x ideaPlain rfl]
    norm_num
  have hraw : rawTotalOf ideaPlain negWeights = -130 := by
    unfold rawTotalOf
    rw [hws,
        show baseScoreOf ideaPlain = 50 from by norm_num [baseScoreOf, ideaPlain],
        show frictionMultiplierOf ideaPlain = 1 from rfl,
        show leadUserBonusOf ideaPlain = 0 from rfl,
        show importBonusOf ideaPlain = 0 from rfl,
        show revenueBonusOf ideaPlain = 0 from rfl,
        show calculateMRRBonus ideaPlain.estimatedMRR = 0 from rfl]
    norm_num
  have htot : (calculateScore ideaPlain negWeights).totalScore = -130 := by
    show min 100 (jsRound (rawTotalOf ideaPlain negWeights)) = -130
    have hfl : ⌊(-130 : ℚ) + 1/2⌋ = -130 := by norm_num [Int.floor_eq_iff]
    rw [hraw, jsRound_eq_floor, hfl]
    norm_num [min_def]
  exact ⟨htot, by rw [htot]; norm_num⟩

/-- C3 witness: the range theorem applied at `ideaPlain` with the concrete
nonnegative weights `scenarioWeights`. -/
theorem calculateScore_range_witness :
    0 ≤ (calculateScore ideaPlain scenarioWeights).totalScore ∧
    (calculateScore ideaPlain scenarioWeights).totalScore ≤ 100 :=
  calculateScore_totalScore_in_range ideaPlain scenarioWeights
    (by norm_num [ideaPlain]) (by norm_num [scenarioWeights]) (by norm_num [scenarioWeights])
    (by norm_num [scenarioWeights]) (by norm_num [scenarioWeights])
    (by norm_num [scenarioWeights])

/-! ## Claim C9 -/

/-- C9 (amended): for every idea with `critical_pain`, `potentialScore`
60 and zero bonuses, and every weight vector summing to 1 whose weighted
dimension sum equals 50, the blended pre-multiplier score
0.4×60 + 0.6×50 = 54 is multiplied by 1.3 and the function returns
`round(70.2) = 70`.  (The original wording "all five dimension scores
equal to 50" is unsatisfiable under `critical_pain` with zero lead-user
indicators: `calculateCompetitionLevel` then adds +10 — see the
counterexample.) -/
theorem calculateScore_frictionMultiplier_scenario (idea : MicroSaaSIdea) (w : ScoringWeights)
    (hf : idea.frictionSeverity = some FrictionSeverity.critical_pain)
    (hp : idea.potentialScore = 60)
    (hl : idea.leadUserIndicators = none)
    (hi : idea.isImportOpportunity = none)
    (hr : idea.revenueVerified = none)
    (hm : idea.estimatedMRR = none)
    (hwsum : w.accessibility + w.paymentPotential + w.marketSize + w.competitionLevel
      + w.implementationSpeed = 1)
    (hws : weightedScoreOf idea w = 50) :
    (calculateScore idea w).totalScore = 70 := by
  have hraw : rawTotalOf idea w = 702/10 := by
    unfold rawTotalOf
    rw [hws,
        show baseScoreOf idea = 60 from by unfold baseScoreOf; rw [hp]; norm_num,
        show frictionMultiplierOf idea = 13/10 from by unfold frictionMultiplierOf; rw [hf]; rfl,
        show leadUserBonusOf idea = 0 from by unfold leadUserBonusOf; rw [hl],
        show importBonusOf idea = 0 from by simp [importBonusOf, hi, jsTruthy],
        show revenueBonusOf idea = 0 from by simp [revenueBonusOf, hr, jsTruthy],
        show calculateMRRBonus idea.estimatedMRR = 0 from by rw [hm]; rfl]
    norm_num
  show min 100 (jsRound (rawTotalOf idea w)) = 70
  have hfl : ⌊(702/10 : ℚ) + 1/2⌋ = 70 := by norm_num [Int.floor_eq_iff]
  rw [hraw, jsRound_eq_floor, hfl]
  norm_num [min_def]

/-- C9 counterexample: at the explicit scenario instance (critical pain,
base 60, zero bonuses, keyword-free text) the five dimension scores are
not all 50 — `calculateCompetitionLevel` is 60 — and with the
solo-developer preset (weights summing to 1) the function returns 71, not
70. -/
theorem frictionMultiplier_scenario_counterexample :
    ideaScenario.frictionSeverity = some FrictionSeverity.critical_pain ∧
    ideaScenario.potentialScore = 60 ∧
    ideaScenario.leadUserIndicators = none ∧
    calculateCompetitionLevel ideaScenario = 60 ∧
    (calculateScore ideaScenario (getWeightsForProfile "solo_dev")).totalScore = 71 := by
  refine ⟨rfl, rfl, rfl, ?_, ?_⟩
  · rw [competition_of_x ideaScenario rfl rfl]
    rw [show ideaScenario.frictionSeverity = some FrictionSeverity.critical_pain from rfl]
    simp
  · have hsolo : getWeightsForProfile "solo_dev" =
        { accessibility := 35/100, paymentPotential := 25/100, marketSize := 10/100,
          competitionLevel := 15/100, implementationSpeed := 15/100 } := rfl
    have hws : weightedScoreOf ideaScenario (getWeightsForProfile "solo_dev") = 103/2 := by
      rw [hsolo]
      simp only [weightedScoreOf, breakdownOf]
      rw [accessibility_of_x ideaScenario rfl, payment_of_x ideaScenario rfl rfl rfl,
          market_of_x ideaScenario rfl, competition_of_x ideaScenario rfl rfl,
          speed_of_x ideaScenario rfl]
      rw [show ideaScenario.frictionSeverity = some FrictionSeverity.critical_pain from rfl]
      norm_num
    have hraw : rawTotalOf ideaScenario (getWeightsForProfile "solo_dev") = 7137/100 := by
      unfold rawTotalOf
      rw [hws,
          show baseScoreOf ideaScenario = 60 from by
            unfold baseScoreOf
            rw [show ideaScenario.potentialScore = 60 from rfl]
            norm_num,
          show frictionMultiplierOf ideaScenario = 13/10 from rfl,
          show leadUserBonusOf ideaScenario = 0 from rfl,
          show importBonusOf ideaScenario = 0 from rfl,
          show revenueBonusOf ideaScenario = 0 from rfl,
          show calculateMRRBonus ideaScenario.estimatedMRR = 0 from rfl]
      norm_num
    show min 100 (jsRound (rawTotalOf ideaScenario (getWeightsForProfile "solo_dev"))) = 71
    have hfl : ⌊(7137/100 : ℚ) + 1/2⌋ = 71 := by norm_num [Int.floor_eq_iff]
    rw [hraw, jsRound_eq_floor, hfl]
    norm_num [min_def]

/-- C9 witness: the amended scenario theorem applied at the explicit
scenario idea and the concrete weights `scenarioWeights` (which sum to 1
and give weighted dimension sum 50): the output is 70. -/
theorem frictionMultiplier_scenario_witness :
    (calculateScore ideaScenario scenarioWeights).totalScore = 70 := by
  apply calculateScore_frictionMultiplier_scenario ideaScenario scenarioWeights
    rfl rfl rfl rfl rfl rfl
  · norm_num [scenarioWeights]
  · simp only [weightedScoreOf, breakdownOf, scenarioWeights]
    rw [accessibility_of_x ideaScenario rfl, payment_of_x ideaScenario rfl rfl rfl,
        market_of_x ideaScenario rfl, competition_of_x ideaScenario rfl rfl,
        speed_of_x ideaScenario rfl]
    norm_num

/-! ## Claim C10 -/

/-- C10 (confirmed): whenever the lower-cased concatenation of `title`,
`problem` and `jtbd` contains none of the Spanish-market keywords,
`detectImportOpportunity` returns true — even with no English-only signal
— because the function returns `hasEnglishOnlySignal || !hasSpanishMarketSignal`. -/
theorem detectImportOpportunity_default_true (idea : MicroSaaSIdea)
    (h : ∀ s ∈ spanishMarketSignals,
      containsSub (lowerChars (idea.title ++ " " ++ idea.problem ++ " " ++ idea.jtbd)) s.data
        = false) :
    detectImportOpportunity idea = true := by
  have hsp : (spanishMarketSignals.any fun s =>
      containsSub (lowerChars (idea.title ++ " " ++ idea.problem ++ " " ++ idea.jtbd)) s.data)
      = false := by
    rw [List.any_eq_false]
    intro s hs
    simp [h s hs]
  simp [detectImportOpportunity, hsp]

/-- C10 witness: a generic English-language idea with neither Spanish nor
English-only keywords is classified as an import opportunity. -/
theorem detectImportOpportunity_witness :
    detectImportOpportunity ideaGeneric = true :=
  detectImportOpportunity_default_true ideaGeneric (by decide)

/-! ## Claim C4 -/

theorem serper_limit_eq : SERPER_MAX_QUERIES - SERPER_SAFETY_BUFFER = 2400 := rfl

theorem searchGoogleStep_of_lt (now : Int) (u : SerperUsage)
    (hd : u.disabled = false) (h : u.count < 2400) :
    searchGoogleStep true now u =
      ({ u with
          count := u.count + 1
          lastUsed := now
          firstUsed := if u.firstUsed = 0 then now else u.firstUsed }, true) := by
  unfold searchGoogleStep canUseSerper incrementUsage
  rw [serper_limit_eq]
  simp [hd, h, Nat.not_le.mpr h]

theorem searchGoogleStep_of_ge (now : Int) (u : SerperUsage)
    (hd : u.disabled = false) (h : 2400 ≤ u.count) :
    searchGoogleStep true now u = (u, false) := by
  unfold searchGoogleStep canUseSerper
  rw [serper_limit_eq]
  simp [hd, Nat.not_lt.mpr h]

theorem searchGoogleIter_spec (times : Nat → Int) :
    ∀ n : Nat, (searchGoogleIter times n).count = min n 2400 ∧
      (searchGoogleIter times n).disabled = false := by
  intro n
  induction n with
  | zero => exact ⟨rfl, rfl⟩
  | succ n ih =>
    obtain ⟨hc, hd⟩ := ih
    by_cases h : n < 2400
    · have hlt : (searchGoogleIter times n).count < 2400 := by
        rw [hc, Nat.min_eq_left (Nat.le_of_lt h)]
        exact h
      constructor
      · show (searchGoogleStep true (times n) (searchGoogleIter times n)).1.count = _
        rw [searchGoogleStep_of_lt (times n) _ hd hlt]
        show (searchGoogleIter times n).count + 1 = min (n + 1) 2400
        rw [hc, Nat.min_eq_left (Nat.le_of_lt h), Nat.min_eq_left (Nat.succ_le_of_lt h)]
      · show (searchGoogleStep true (times n) (searchGoogleIter times n)).1.disabled = false
        rw [searchGoogleStep_of_lt (times n) _ hd hlt]
        exact hd
    · have hge : 2400 ≤ (searchGoogleIter times n).count := by
        rw [hc, Nat.min_eq_right (Nat.not_lt.mp h)]
      constructor
      · show (searchGoogleStep true (times n) (searchGoogleIter times n)).1.count = _
        rw [searchGoogleStep_of_ge (times n) _ hd hge]
        rw [hc, Nat.min_eq_right (Nat.not_lt.mp h),
            Nat.min_eq_right (le_trans (Nat.not_lt.mp h) (Nat.le_succ n))]
      · show (searchGoogleStep true (times n) (searchGoogleIter times n)).1.disabled = false
        rw [searchGoogleStep_of_ge (times n) _ hd hge]
        exact hd

/-- C4 (amended): from the zeroed record with the provider configured,
`usageStats().used` equals `N` after `N` gated `search()` calls, for every
`N` up to the effective limit 2400 = MAX − SAFETY_BUFFER, with the
`canUse()` gate passing at each of those calls; `canUse()` is true iff
configured, not disabled, and `count < 2400`; once `used` reaches the
limit, `canUse()` returns false and every further `search()` call leaves
the persisted state unchanged, so it stays false until `resetUsage()`
(after which it is true again).  The `disabled` flag itself, however, is
never set by `search()`: the gate short-circuits before `incrementUsage`
could trip it. -/
theorem serper_quota_monotonic (times : Nat → Int) :
    (∀ (configured : Bool) (u : SerperUsage),
      canUseSerper configured u
        = (configured && (!u.disabled && decide (u.count < 2400)))) ∧
    (∀ n : Nat, n ≤ 2400 →
      (searchGoogleIter times n).count = n ∧
      ∀ k, k < n → canUseSerper true (searchGoogleIter times k) = true) ∧
    (∀ n : Nat, 2400 ≤ n →
      (searchGoogleIter times n).count = 2400 ∧
      canUseSerper true (searchGoogleIter times n) = false ∧
      (searchGoogleIter times n).disabled = false ∧
      (searchGoogleStep true (times n) (searchGoogleIter times n)).1
        = searchGoogleIter times n) ∧
    canUseSerper true resetSerperUsage = true := by
  refine ⟨?_, ?_, ?_, ?_⟩
  · intro configured u
    unfold canUseSerper
    rw [serper_limit_eq]
  · intro n hn
    constructor
    · rw [(searchGoogleIter_spec times n).1, Nat.min_eq_left hn]
    · intro k hk
      have hck : (searchGoogleIter times k).count = k := by
        rw [(searchGoogleIter_spec times k).1,
            Nat.min_eq_left (Nat.le_of_lt (Nat.lt_of_lt_of_le hk hn))]
      have hdk := (searchGoogleIter_spec times k).2
      unfold canUseSerper
      rw [serper_limit_eq, hck, hdk]
      simp [Nat.lt_of_lt_of_le hk hn]
  · intro n hn
    have hcn : (searchGoogleIter times n).count = 2400 := by
      rw [(searchGoogleIter_spec times n).1, Nat.min_eq_right hn]
    have hdn := (searchGoogleIter_spec times n).2
    refine ⟨hcn, ?_, hdn, ?_⟩
    · unfold canUseSerper
      rw [serper_limit_eq, hcn, hdn]
      simp
    · rw [searchGoogleStep_of_ge (times n) _ hdn (le_of_eq hcn.symm)]
  · unfold canUseSerper resetSerperUsage initialSerperUsage
    rw [serper_limit_eq]
    simp

/-- C4 counterexample: after 2400 gated `search()` calls from the zeroed
record, the effective limit is reached and `canUse()` is false, yet
`disabled` is still false — `search()` never sets the flag, against the
claim that the client "becomes disabled" at the limit. -/
theorem serper_never_disabled_counterexample :
    (searchGoogleIter (fun _ => 0) 2400).count = 2400 ∧
    canUseSerper true (searchGoogleIter (fun _ => 0) 2400) = false ∧
    (searchGoogleIter (fun _ => 0) 2400).disabled = false := by
  obtain ⟨hc, hd⟩ := searchGoogleIter_spec (fun _ => 0) 2400
  have hc' : (searchGoogleIter (fun _ => 0) 2400).count = 2400 := by simpa using hc
  refine ⟨hc', ?_, hd⟩
  unfold canUseSerper
  rw [serper_limit_eq, hc', hd]
  simp

/-- C4 witness: the amended quota theorem applied at three and two calls
from the zeroed record. -/
theorem serper_quota_witness :
    (searchGoogleIter (fun _ => 0) 3).count = 3 ∧
    canUseSerper true (searchGoogleIter (fun _ => 0) 2) = true :=
  ⟨((serper_quota_monotonic (fun _ => 0)).2.1 3 (by norm_num)).1,
   ((serper_quota_monotonic (fun _ => 0)).2.1 3 (by norm_num)).2 2 (by norm_num)⟩

/-! ## Claims C6 and C7 -/

theorem fetchLoop_no_ok (net : Nat → FetchOutcome)
    (hfail : ∀ i, i < 4 → outcomeFails (net i) = true) :
    ∀ (attempts : List Nat) (st : ProxyState) (errors : List String) (r : Response),
      (fetchLoop net attempts st errors).1 ≠ .ok r := by
  intro attempts
  induction attempts with
  | nil => intro st errors r; simp [fetchLoop]
  | cons attempt rest ih =>
    intro st errors r
    have hIdx : (st.currentProxyIndex + attempt) % CORS_PROXIES.length < 4 := by
      rw [show CORS_PROXIES.length = 4 from rfl]
      exact Nat.mod_lt _ (by norm_num)
    simp only [fetchLoop]
    split_ifs with hskip
    · exact ih st errors r
    · cases hnet : net ((st.currentProxyIndex + attempt) % CORS_PROXIES.length) with
      | ok resp =>
        have hro : resp.ok = false := by
          have h := hfail _ hIdx
          rw [hnet] at h
          simpa [outcomeFails] using h
        simp only [hro, Bool.false_eq_true, if_false]
        exact ih _ _ r
      | error e =>
        exact ih _ _ r

/-- One failed attempt appends its cause and bumps the strategy's failure
counter before moving on. -/
theorem fetchLoop_fail_step (net : Nat → FetchOutcome) (attempt : Nat) (rest : List Nat)
    (st : ProxyState) (errors : List String)
    (hfail : outcomeFails (net ((st.currentProxyIndex + attempt) % CORS_PROXIES.length)) = true)
    (hskip : ¬(3 ≤ mapGet st.proxyFailures
        (CORS_PROXIES.getD ((st.currentProxyIndex + attempt) % CORS_PROXIES.length) "")
      ∧ attempt < CORS_PROXIES.length - 1)) :
    fetchLoop net (attempt :: rest) st errors =
      fetchLoop net rest
        { st with proxyFailures := (mapSet st.proxyFailures
            (CORS_PROXIES.getD ((st.currentProxyIndex + attempt) % CORS_PROXIES.length) "")
            (mapGet st.proxyFailures
              (CORS_PROXIES.getD ((st.currentProxyIndex + attempt) % CORS_PROXIES.length) "")
              + 1)) }
        (errors ++ [proxyErrorMessage
          (CORS_PROXIES.getD ((st.currentProxyIndex + attempt) % CORS_PROXIES.length) "")
          (net ((st.currentProxyIndex + attempt) % CORS_PROXIES.length))]) := by
  cases hnet : net ((st.currentProxyIndex + attempt) % CORS_PROXIES.length) with
  | ok resp =>
    have hro : resp.ok = false := by
      rw [hnet] at hfail
      simpa [outcomeFails] using hfail
    simp only [fetchLoop, hnet, hro, Bool.false_eq_true, if_false, proxyErrorMessage]
    rw [if_neg hskip]
  | error e =>
    simp only [fetchLoop, hnet, proxyErrorMessage]
    rw [if_neg hskip]

/-- C7 (confirmed): when every proxy strategy fails (non-success status or
network error), `fetchWithCorsProxy` never returns successfully; from the
fresh module state it fails with the single aggregate error listing the
cause of all four strategies, in attempt order. -/
theorem proxy_exhaustion_aggregate_error (net : Nat → FetchOutcome) (st : ProxyState)
    (hfail : ∀ i, i < 4 → outcomeFails (net i) = true) :
    (∀ r : Response, (fetchWithCorsProxy net st).1 ≠ .ok r) ∧
    (st = initialProxyState →
      (fetchWithCorsProxy net st).1 =
        .error [proxyErrorMessage "corsproxy.io" (net 0),
                proxyErrorMessage "allorigins.win" (net 1),
                proxyErrorMessage "codetabs" (net 2),
                proxyErrorMessage "corsproxy-alt" (net 3)]) := by
  constructor
  · intro r
    exact fetchLoop_no_ok net hfail [0, 1, 2, 3] st [] r
  · intro hst
    subst hst
    unfold fetchWithCorsProxy
    rw [fetchLoop_fail_step net 0 _ _ _ (by simpa using hfail 0 (by norm_num))
        (by simp [initialProxyState, mapGet, CORS_PROXIES])]
    rw [fetchLoop_fail_step net 1 _ _ _ (by simpa using hfail 1 (by norm_num))
        (by simp [initialProxyState, mapGet, mapSet, CORS_PROXIES])]
    rw [fetchLoop_fail_step net 2 _ _ _ (by simpa using hfail 2 (by norm_num))
        (by simp [initialProxyState, mapGet, mapSet, CORS_PROXIES])]
    rw [fetchLoop_fail_step net 3 _ _ _ (by simpa using hfail 3 (by norm_num))
        (by simp [initialProxyState, mapGet, mapSet, CORS_PROXIES])]
    simp [fetchLoop, initialProxyState, mapGet, mapSet, CORS_PROXIES]

/-- C7 witness: with every strategy throwing, the call from the fresh state
fails with the aggregate of all four causes and is not a success. -/
theorem proxy_exhaustion_witness :
    (fetchWithCorsProxy netF initialProxyState).1 = .error ["down", "down", "down", "down"] ∧
    (∀ r : Response, (fetchWithCorsProxy netF initialProxyState).1 ≠ .ok r) := by
  constructor
  · have h := (proxy_exhaustion_aggregate_error netF initialProxyState (by decide)).2 rfl
    simpa [netF, proxyErrorMessage] using h
  · exact (proxy_exhaustion_aggregate_error netF initialProxyState (by decide)).1

/-- C6 (confirmed): from the default state, when strategy 1 (index 0)
fails and strategy 2 (index 1) succeeds, `fetchWithCorsProxy` returns
strategy 2's response, records index 1 as last-known-good with its
failure counter reset to 0, and any subsequent call whose strategy 2
succeeds returns that response without consulting strategy 1. -/
theorem proxy_failover_strategy2 (net : Nat → FetchOutcome) (r : Response)
    (h0 : outcomeFails (net 0) = true) (h1 : net 1 = .ok r) (hr : r.ok = true) :
    (fetchWithCorsProxy net initialProxyState).1 = .ok r ∧
    (fetchWithCorsProxy net initialProxyState).2 =
      { currentProxyIndex := 1,
        proxyFailures := [("corsproxy.io", 1), ("allorigins.win", 0)] } ∧
    mapGet (fetchWithCorsProxy net initialProxyState).2.proxyFailures "allorigins.win" = 0 ∧
    (∀ (net2 : Nat → FetchOutcome) (r2 : Response), net2 1 = .ok r2 → r2.ok = true →
      (fetchWithCorsProxy net2 (fetchWithCorsProxy net initialProxyState).2).1 = .ok r2) := by
  have hfetch : fetchWithCorsProxy net initialProxyState =
      (.ok r, { currentProxyIndex := 1,
                proxyFailures := [("corsproxy.io", 1), ("allorigins.win", 0)] }) := by
    unfold fetchWithCorsProxy
    cases hnet0 : net 0 with
    | ok r0 =>
      have hr0 : r0.ok = false := by
        rw [hnet0] at h0
        simpa [outcomeFails] using h0
      simp [fetchLoop, CORS_PROXIES, initialProxyState, mapGet, mapSet, hnet0, hr0, h1, hr]
    | error e =>
      simp [fetchLoop, CORS_PROXIES, initialProxyState, mapGet, mapSet, hnet0, h1, hr]
  refine ⟨by rw [hfetch], by rw [hfetch], by rw [hfetch]; rfl, ?_⟩
  intro net2 r2 h2 hr2
  rw [hfetch]
  unfold fetchWithCorsProxy
  simp [fetchLoop, CORS_PROXIES, mapGet, mapSet, h2, hr2]

/-- C6 witness: the failover theorem applied to the concrete oracle where
strategy 1 throws and every other strategy returns `respW`. -/
theorem proxy_failover_witness :
    (fetchWithCorsProxy netW initialProxyState).1 = .ok respW :=
  (proxy_failover_strategy2 netW respW rfl rfl rfl).1

/-! ## Claims C1, C2, C5 and C8 -/

/-- A completed run returns exactly the dedup-sorted merge with the
pre-dedup `totalItems`, and its call list covers both always-on waves plus
the enabled optional waves. -/
theorem aggregate_ok_inv (useSerper useProductHunt : Bool) (maxItems : Nat)
    (signal : AbortSignal) (A : AdapterOutcomes) (d : AggregatedData)
    (h : (aggregateOpportunityData useSerper useProductHunt maxItems signal A).2
      = Except.ok d) :
    d = { painPoints := sortByScoreDesc (dedupe (mergedPainPoints useSerper maxItems A))
          leadUserSignals :=
            sortByScoreDesc (dedupe (mergedLeadUserSignals useSerper maxItems A))
          competitors :=
            sortByScoreDesc (dedupe (mergedCompetitors useSerper useProductHunt maxItems A))
          trendingTopics :=
            sortByScoreDesc (dedupe (mergedTrendingTopics useSerper useProductHunt maxItems A))
          sourcesUsed := finalSourcesUsed useSerper useProductHunt
          totalItems := ((mergedPainPoints useSerper maxItems A).length
            + (mergedLeadUserSignals useSerper maxItems A).length
            + (mergedCompetitors useSerper useProductHunt maxItems A).length
            + (mergedTrendingTopics useSerper useProductHunt maxItems A).length) } ∧
    (aggregateOpportunityData useSerper useProductHunt maxItems signal A).1
      = wave1Providers ++ wave2Providers
        ++ (if useProductHunt then productHuntProviders else [])
        ++ (if useSerper then serperProviders else []) := by
  obtain ⟨a0, a1, a2⟩ := signal
  cases a0
  · cases a1
    · cases a2
      · constructor
        · have h' := h
          simp [aggregateOpportunityData] at h'
          exact h'.symm
        · simp [aggregateOpportunityData]
      · simp [aggregateOpportunityData] at h
    · simp [aggregateOpportunityData] at h
  · simp [aggregateOpportunityData] at h

/-- C1 (amended): in every completed aggregation run, each of the four
buckets contains at most one item per id and is sorted descending by
`score`; when several merged items share an id, the instance kept is the
LAST-seen one (a JS `Map` built from `[id, item]` entries overwrites on a
duplicate key), not the first-seen one the spec claims. -/
theorem aggregate_buckets_dedup_sorted (useSerper useProductHunt : Bool) (maxItems : Nat)
    (signal : AbortSignal) (A : AdapterOutcomes) (d : AggregatedData)
    (h : (aggregateOpportunityData useSerper useProductHunt maxItems signal A).2
      = Except.ok d) :
    ((d.painPoints.map (fun x => x.id)).Nodup ∧ d.painPoints.Sorted scoreGE ∧
      ∀ x ∈ d.painPoints,
        ((mergedPainPoints useSerper maxItems A).filter
          (fun y => y.id == x.id)).getLast? = some x) ∧
    ((d.leadUserSignals.map (fun x => x.id)).Nodup ∧ d.leadUserSignals.Sorted scoreGE ∧
      ∀ x ∈ d.leadUserSignals,
        ((mergedLeadUserSignals useSerper maxItems A).filter
          (fun y => y.id == x.id)).getLast? = some x) ∧
    ((d.competitors.map (fun x => x.id)).Nodup ∧ d.competitors.Sorted scoreGE ∧
      ∀ x ∈ d.competitors,
        ((mergedCompetitors useSerper useProductHunt maxItems A).filter
          (fun y => y.id == x.id)).getLast? = some x) ∧
    ((d.trendingTopics.map (fun x => x.id)).Nodup ∧ d.trendingTopics.Sorted scoreGE ∧
      ∀ x ∈ d.trendingTopics,
        ((mergedTrendingTopics useSerper useProductHunt maxItems A).filter
          (fun y => y.id == x.id)).getLast? = some x) := by
  obtain ⟨hd, -⟩ := aggregate_ok_inv useSerper useProductHunt maxItems signal A d h
  subst hd
  exact ⟨⟨bucket_ids_nodup _, sortByScoreDesc_sorted _, bucket_lastSeen _⟩,
    ⟨bucket_ids_nodup _, sortByScoreDesc_sorted _, bucket_lastSeen _⟩,
    ⟨bucket_ids_nodup _, sortByScoreDesc_sorted _, bucket_lastSeen _⟩,
    ⟨bucket_ids_nodup _, sortByScoreDesc_sorted _, bucket_lastSeen _⟩⟩

/-- C1 counterexample: the duplicate-id run merges `[itemA1, itemA2]`
(equal ids, different payloads) and the returned bucket is `[itemA2]` —
the last-seen instance — not the first-seen `[itemA1]`. -/
theorem aggregate_firstSeen_counterexample :
    (aggregateOpportunityData false false 20 sigLive dupOutcomes).2 = Except.ok dupBundle ∧
    mergedPainPoints false 20 dupOutcomes = [itemA1, itemA2] ∧
    itemA1.id = itemA2.id ∧
    dupBundle.painPoints = [itemA2] ∧
    itemA1 ≠ itemA2 := by
  refine ⟨rfl, rfl, rfl, rfl, ?_⟩
  decide

/-- C1 witness: the amended bucket theorem applied to the concrete
duplicate-item run. -/
theorem aggregate_buckets_witness :
    ((dupBundle.painPoints.map (fun x => x.id)).Nodup ∧
      dupBundle.painPoints.Sorted scoreGE ∧
      ∀ x ∈ dupBundle.painPoints,
        ((mergedPainPoints false 20 dupOutcomes).filter
          (fun y => y.id == x.id)).getLast? = some x) ∧
    ((dupBundle.leadUserSignals.map (fun x => x.id)).Nodup ∧
      dupBundle.leadUserSignals.Sorted scoreGE ∧
      ∀ x ∈ dupBundle.leadUserSignals,
        ((mergedLeadUserSignals false 20 dupOutcomes).filter
          (fun y => y.id == x.id)).getLast? = some x) ∧
    ((dupBundle.competitors.map (fun x => x.id)).Nodup ∧
      dupBundle.competitors.Sorted scoreGE ∧
      ∀ x ∈ dupBundle.competitors,
        ((mergedCompetitors false false 20 dupOutcomes).filter
          (fun y => y.id == x.id)).getLast? = some x) ∧
    ((dupBundle.trendingTopics.map (fun x => x.id)).Nodup ∧
      dupBundle.trendingTopics.Sorted scoreGE ∧
      ∀ x ∈ dupBundle.trendingTopics,
        ((mergedTrendingTopics false false 20 dupOutcomes).filter
          (fun y => y.id == x.id)).getLast? = some x) :=
  aggregate_buckets_dedup_sorted false false 20 sigLive dupOutcomes dupBundle rfl

/-- C2 (amended): `totalItems` of a completed run is the sum of the four
accumulator sizes BEFORE deduplication (after merging and the lead-user
sweep), so it is an upper bound on — not equal to — the sum of the
returned bucket sizes. -/
theorem aggregate_totalItems_pre_dedup (useSerper useProductHunt : Bool) (maxItems : Nat)
    (signal : AbortSignal) (A : AdapterOutcomes) (d : AggregatedData)
    (h : (aggregateOpportunityData useSerper useProductHunt maxItems signal A).2
      = Except.ok d) :
    d.totalItems = (mergedPainPoints useSerper maxItems A).length
      + (mergedLeadUserSignals useSerper maxItems A).length
      + (mergedCompetitors useSerper useProductHunt maxItems A).length
      + (mergedTrendingTopics useSerper useProductHunt maxItems A).length ∧
    d.painPoints.length + d.leadUserSignals.length + d.competitors.length
      + d.trendingTopics.length ≤ d.totalItems := by
  obtain ⟨hd, -⟩ := aggregate_ok_inv useSerper useProductHunt maxItems signal A d h
  subst hd
  refine ⟨rfl, ?_⟩
  exact add_le_add (add_le_add (add_le_add
    (bucket_length_le (mergedPainPoints useSerper maxItems A))
    (bucket_length_le (mergedLeadUserSignals useSerper maxItems A)))
    (bucket_length_le (mergedCompetitors useSerper useProductHunt maxItems A)))
    (bucket_length_le (mergedTrendingTopics useSerper useProductHunt maxItems A))

/-- C2 counterexample: on the duplicate-item run the returned buckets hold
one item in total, but `totalItems` is 2 — the counter is taken before
deduplication, so it does not equal the sum of the returned bucket
sizes. -/
theorem totalItems_dedup_counterexample :
    (aggregateOpportunityData false false 20 sigLive dupOutcomes).2 = Except.ok dupBundle ∧
    dupBundle.totalItems = 2 ∧
    dupBundle.painPoints.length + dupBundle.leadUserSignals.length
      + dupBundle.competitors.length + dupBundle.trendingTopics.length = 1 :=
  ⟨rfl, rfl, rfl⟩

/-- C2 witness: the amended `totalItems` theorem applied to the all-fail
run, whose bundle is empty with `totalItems = 0`. -/
theorem totalItems_witness :
    emptyBundle.totalItems = (mergedPainPoints false 20 allFailOutcomes).length
      + (mergedLeadUserSignals false 20 allFailOutcomes).length
      + (mergedCompetitors false false 20 allFailOutcomes).length
      + (mergedTrendingTopics false false 20 allFailOutcomes).length ∧
    emptyBundle.painPoints.length + emptyBundle.leadUserSignals.length
      + emptyBundle.competitors.length + emptyBundle.trendingTopics.length
      ≤ emptyBundle.totalItems :=
  aggregate_totalItems_pre_dedup false false 20 sigLive allFailOutcomes emptyBundle rfl

/-- C5 (confirmed): when the cancellation signal is already set,
`aggregateOpportunityData` fails with the distinguished abort error and an
empty call list (zero adapter or network calls); and an abort is the only
failure the function can propagate — every provider-local failure is
absorbed, so any error outcome equals `.aborted`. -/
theorem aggregate_cancellation_only (useSerper useProductHunt : Bool) (maxItems : Nat)
    (signal : AbortSignal) (A : AdapterOutcomes) :
    (signal.abortedAtStart = true →
      aggregateOpportunityData useSerper useProductHunt maxItems signal A
        = ([], Except.error RunError.aborted)) ∧
    (∀ e, (aggregateOpportunityData useSerper useProductHunt maxItems signal A).2
        = Except.error e → e = RunError.aborted) := by
  obtain ⟨a0, a1, a2⟩ := signal
  cases a0 <;> cases a1 <;> cases a2 <;>
    constructor <;>
    simp [aggregateOpportunityData]

/-- C5 witness: the cancellation theorem applied to the pre-aborted signal
with every adapter failing. -/
theorem aggregate_cancellation_witness :
    aggregateOpportunityData false false 20 sigPre allFailOutcomes
      = ([], Except.error RunError.aborted) :=
  (aggregate_cancellation_only false false 20 sigPre allFailOutcomes).1 rfl

/-- C8 (amended): `sourcesUsed` of a completed run lists every attempted
provider EXCEPT reddit: every provider of the run's adapter-call list other
than "reddit" appears in `sourcesUsed`, while reddit is queried in the
first wave yet never listed. -/
theorem aggregate_sourcesUsed_attempted (useSerper useProductHunt : Bool) (maxItems : Nat)
    (signal : AbortSignal) (A : AdapterOutcomes) (d : AggregatedData)
    (h : (aggregateOpportunityData useSerper useProductHunt maxItems signal A).2
      = Except.ok d) :
    (∀ prov ∈ (aggregateOpportunityData useSerper useProductHunt maxItems signal A).1,
        prov ≠ "reddit" → prov ∈ d.sourcesUsed) ∧
    "reddit" ∈ (aggregateOpportunityData useSerper useProductHunt maxItems signal A).1 ∧
    "reddit" ∉ d.sourcesUsed := by
  obtain ⟨hd, hcalls⟩ := aggregate_ok_inv useSerper useProductHunt maxItems signal A d h
  have hsrc : d.sourcesUsed = finalSourcesUsed useSerper useProductHunt := by rw [hd]
  rw [hcalls, hsrc]
  cases useSerper <;> cases useProductHunt <;> decide

/-- C8 counterexample: on a completed run, reddit is queried in the first
wave but `"reddit"` does not appear in the returned `sourcesUsed`. -/
theorem sourcesUsed_reddit_counterexample :
    (aggregateOpportunityData false false 20 sigLive allFailOutcomes).2
      = Except.ok emptyBundle ∧
    "reddit" ∈ (aggregateOpportunityData false false 20 sigLive allFailOutcomes).1 ∧
    "reddit" ∉ emptyBundle.sourcesUsed := by
  refine ⟨rfl, ?_, ?_⟩ <;> decide

/-- C8 witness: the amended `sourcesUsed` theorem applied to the concrete
all-fail run, instantiated at the attempted provider "hackernews". -/
theorem sourcesUsed_witness :
    "hackernews" ∈ emptyBundle.sourcesUsed :=
  (aggregate_sourcesUsed_attempted false false 20 sigLive allFailOutcomes emptyBundle rfl).1
    "hackernews" (by decide) (by decide)
